import Mathlib

/-!
Shallow embedding of the lms-app-backend Express gateway (src/server.js and
the variant src/unnamed/part_000).  The two variants share the auth and role
middleware, the provisioning workflow and the global error handler; server.js
carries the live-session routes, part_000 carries the single-course,
course-mutation and curriculum routes.  We embed the union of the two route
sets over one state type.

External collaborators (the Supabase identity service and data service) are
modelled by explicit state (the identity-service user list and the database
tables) plus an environment of injectable call failures, since the JS client
surfaces every remote failure as an `error` value or a thrown exception.
-/

namespace Lms

/-- A record of the identity service (a Supabase auth user): created by
`auth.admin.createUser`, removed by `auth.admin.deleteUser`. -/
structure AuthUser where
  id : String
  email : String
  deriving Repr, DecidableEq

/-- A row of the `profiles` table. -/
structure Profile where
  id : String
  name : String
  email : String
  role : String
  avatar : Option String
  created_at : String
  deriving Repr, DecidableEq

/-- The projection of a profile row selected by GET /api/instructors
(`id, name, email, avatar, created_at` - no role). -/
structure ProfilePublic where
  id : String
  name : String
  email : String
  avatar : Option String
  created_at : String
  deriving Repr, DecidableEq

/-- A row of the `courses` table (the columns the routes read or write). -/
structure Course where
  id : String
  title : String
  short_desc : String
  instructor_id : String
  status : String
  category : Option String
  level : Option String
  thumbnail_url : Option String
  created_at : String
  deriving Repr, DecidableEq

/-- A row of the `live_sessions` table. -/
structure LiveSession where
  id : String
  title : String
  course : String
  start_time : String
  status : String
  instructor_id : String
  deriving Repr, DecidableEq

/-- A row of the `course_modules` table. -/
structure CourseModule where
  id : String
  course_id : String
  title : String
  order_index : Nat
  deriving Repr, DecidableEq

/-- A row of the `course_lessons` table. -/
structure Lesson where
  id : String
  module_id : String
  title : String
  type : String
  url : String
  order_index : Nat
  deriving Repr, DecidableEq

/-- A row of the `lesson_files` table. -/
structure LessonFile where
  id : String
  lesson_id : String
  name : String
  file_url : String
  file_size : Nat
  deriving Repr, DecidableEq

/-- A lesson together with its nested files, as shaped by the curriculum
select. -/
structure LessonView where
  lesson : Lesson
  files : List LessonFile
  deriving Repr, DecidableEq

/-- A module together with its nested lessons, as shaped by the curriculum
select. -/
structure ModuleView where
  cmodule : CourseModule
  lessons : List LessonView
  deriving Repr, DecidableEq

/-- The data-service tables the routes touch. -/
structure DB where
  profiles : List Profile
  courses : List Course
  sessions : List LiveSession
  modules : List CourseModule
  lessons : List Lesson
  lessonFiles : List LessonFile
  deriving Repr

/-- Request body of POST /api/instructors.  `none` models an absent JSON
field (JS `undefined`). -/
structure InstructorBody where
  name : Option String
  email : Option String
  deriving Repr, DecidableEq

/-- Request body of POST /api/courses: the validated columns plus the
free-form rest fields the handler spreads into the insert. -/
structure CourseBody where
  title : Option String
  short_desc : Option String
  instructor_id : Option String
  status : Option String
  category : Option String
  level : Option String
  thumbnail_url : Option String
  deriving Repr, DecidableEq

/-- Request body of PUT /api/courses/:id: `update(req.body)` sets exactly
the supplied columns. -/
structure CoursePatch where
  title : Option String := none
  short_desc : Option String := none
  instructor_id : Option String := none
  status : Option String := none
  category : Option String := none
  level : Option String := none
  thumbnail_url : Option String := none
  deriving Repr, DecidableEq

/-- Request body of POST /api/live-sessions. -/
structure SessionBody where
  title : Option String
  course : Option String
  start_time : Option String
  status : Option String
  instructor_id : Option String
  deriving Repr, DecidableEq

/-- Request body of PUT /api/live-sessions/:id. -/
structure SessionPatch where
  title : Option String := none
  course : Option String := none
  start_time : Option String := none
  status : Option String := none
  instructor_id : Option String := none
  deriving Repr, DecidableEq

/-- Environment of the two remote services: the token exchange and the
failure modes of each remote call.  A `some msg` injects the JS client
returning an error with that message; the flags model errors on calls whose
error object the code never reads beyond truthiness. -/
structure Env where
  getUser : String → Option String
  profileRoleLookupError : Bool := false
  listQueryError : Option String := none
  courseByIdError : Option String := none
  createUserError : Option String := none
  insertProfileError : Option String := none
  deleteUserOk : Bool := true
  insertCourseError : Option String := none
  updateCourseError : Option String := none
  deleteCourseError : Option String := none
  insertSessionError : Option String := none
  sessionOwnerLookupError : Bool := false
  updateSessionError : Option String := none
  deleteSessionError : Option String := none
  nextUserId : String := ""
  nextCourseId : String := ""
  nextSessionId : String := ""
  now : String := ""

/-- Response bodies, one constructor per JSON shape the routes emit. -/
inductive Body where
  | errB (error : String) (message : String)
  | errOnly (error : String)
  | healthB (status : String) (message : String)
  | profileRows (rows : List Profile)
  | instructorRows (rows : List ProfilePublic)
  | createdB (success : Bool) (message : String) (userId : String)
  | courseRows (rows : List (Course × Option (String × String)))
  | courseB (c : Course)
  | courseJoinB (c : Course) (instructor : Option (String × String))
  | sessionRows (rows : List (LiveSession × Option (String × String)))
  | sessionB (s : LiveSession)
  | curriculumB (rows : List ModuleView)
  | deletedB (success : Bool) (message : String)
  deriving Repr, DecidableEq

/-- An HTTP response: status code and JSON body. -/
structure Response where
  status : Nat
  body : Body
  deriving Repr, DecidableEq

/-- The error kind (the `error` field) of a response, when the body is an
error envelope. -/
def Response.errorKind : Response → Option String
  | ⟨_, Body.errB e _⟩ => some e
  | ⟨_, Body.errOnly e⟩ => some e
  | _ => none

/-- Observable calls a request issues after authentication: the role lookup
of the role middleware, the ownership lookup of the instructor guard, entry
into the route handler, and each identity-service or data-service write. -/
inductive Event where
  | roleLookup (uid : String)
  | handlerRun
  | ownershipLookup (sid : String)
  | identityCreate (email : String)
  | identityDelete (uid : String)
  | profileInsert (uid : String)
  | dsInsert (tbl : String)
  | dsUpdate (tbl : String) (id : String)
  | dsDelete (tbl : String) (id : String)
  deriving Repr, DecidableEq

/-- Outcome of one request: the response, the final data-service and
identity-service state, and the trace of post-authentication calls. -/
structure Result where
  resp : Response
  db : DB
  auth : List AuthUser
  trace : List Event

deriving instance DecidableEq for Except

/-- JS truthiness of an optional string field: absent and empty are falsy. -/
def jsTruthy : Option String → Bool
  | none => false
  | some s => s != ""

/-- `s.startsWith(pre)`, computed over the character list so the kernel can
evaluate it. -/
def strStarts (s pre : String) : Bool :=
  s.data.take pre.data.length == pre.data

/-- `s.split(sep)` of JS on a single-character separator: adjacent
separators yield empty segments, like the JS method. -/
def splitChar (sep : Char) : List Char → List (List Char)
  | [] => [[]]
  | c :: cs =>
    let r := splitChar sep cs
    if c == sep then [] :: r
    else
      match r with
      | [] => [[c]]
      | g :: gs => (c :: g) :: gs

/-- `s.toLowerCase()` on the ASCII range. -/
def jsToLower (s : String) : String := String.mk (s.data.map Char.toLower)

def isWsChar (c : Char) : Bool := c == ' ' || c == '\t' || c == '\n' || c == '\r'

/-- `s.trim()`: strip whitespace from both ends. -/
def jsTrim (s : String) : String :=
  String.mk (((s.data.dropWhile isWsChar).reverse.dropWhile isWsChar).reverse)

def findProfile (ps : List Profile) (i : String) : Option Profile :=
  ps.find? (fun p => p.id == i)

def findCourse (cs : List Course) (i : String) : Option Course :=
  cs.find? (fun c => c.id == i)

def findSession (ss : List LiveSession) (i : String) : Option LiveSession :=
  ss.find? (fun s => s.id == i)

def findAuthUser (us : List AuthUser) (i : String) : Option AuthUser :=
  us.find? (fun u => u.id == i)

/-- Insertion step of the stable sort used to model the data-service
`order` clauses. -/
def insertLe {α : Type} (le : α → α → Bool) (x : α) : List α → List α
  | [] => [x]
  | y :: ys => if le x y then x :: y :: ys else y :: insertLe le x ys

/-- Stable insertion sort modelling a data-service `order` clause. -/
def sortByLe {α : Type} (le : α → α → Bool) : List α → List α
  | [] => []
  | x :: xs => insertLe le x (sortByLe le xs)

/-- The `profiles:instructor_id ( id, name )` join of the list selects. -/
def joinName (db : DB) (iid : String) : Option (String × String) :=
  (findProfile db.profiles iid).map (fun p => (p.id, p.name))

/-- The response of the global error handler for a thrown error carrying
message `m`. -/
def internalErr (m : String) : Response :=
  ⟨500, Body.errB "Internal Server Error" m⟩

/-- Message of the data-service `.single()` error when zero rows match. -/
def noRowsMsg : String :=
  "JSON object requested, multiple (or no) rows returned"

def unauthorizedMissing : Response :=
  ⟨401, Body.errB "Unauthorized" "Missing or invalid Authorization header"⟩

def unauthorizedInvalid : Response :=
  ⟨401, Body.errB "Unauthorized" "Invalid or expired token"⟩

/-- `authHeader.split(" ")[1]`. -/
def bearerToken (h : String) : String :=
  String.mk ((splitChar ' ' h.data).getD 1 [])

/-- The verifyToken middleware: extract the bearer credential and exchange
it with the identity service. -/
def verifyToken (env : Env) (hdr : Option String) : Except Response String :=
  match hdr with
  | none => Except.error unauthorizedMissing
  | some h =>
    if strStarts h "Bearer " then
      match env.getUser (bearerToken h) with
      | some uid => Except.ok uid
      | none => Except.error unauthorizedInvalid
    else Except.error unauthorizedMissing

/-- The role lookup `from("profiles").select("role").eq("id", uid).single()`:
`none` is the branch the code takes on a lookup error or a missing row
(`error || !data`). -/
def lookupRole (env : Env) (db : DB) (uid : String) : Option String :=
  if env.profileRoleLookupError then none
  else (findProfile db.profiles uid).map (fun p => p.role)

/-- The requireAdmin middleware (both variants agree on its semantics). -/
def requireAdmin (env : Env) (db : DB) (uid : String) : Except Response String :=
  match lookupRole env db uid with
  | some r =>
    if r == "admin" then Except.ok r
    else Except.error ⟨403, Body.errB "Forbidden" "Admin access required"⟩
  | none => Except.error ⟨403, Body.errB "Forbidden" "Admin access required"⟩

/-- The requireAdminOrInstructor middleware of server.js. -/
def requireAdminOrInstructor (env : Env) (db : DB) (uid : String) :
    Except Response String :=
  match lookupRole env db uid with
  | none => Except.error ⟨403, Body.errB "Forbidden" "Access denied"⟩
  | some r =>
    if r == "admin" || r == "instructor" then Except.ok r
    else Except.error
      ⟨403, Body.errB "Forbidden" "Admin or Instructor access required"⟩

/-- The union of the route tables of the two variants, with each route
carrying its path parameters and parsed body. -/
inductive Route where
  | health
  | getUsers (roleFilter : Option String)
  | getInstructors
  | postInstructors (b : InstructorBody)
  | getCourses
  | getCourseById (id : String)
  | postCourses (b : CourseBody)
  | putCourse (id : String) (p : CoursePatch)
  | deleteCourse (id : String)
  | getCurriculum (id : String)
  | getLiveSessions
  | postLiveSessions (b : SessionBody)
  | putLiveSession (id : String) (p : SessionPatch)
  | deleteLiveSession (id : String)
  deriving Repr, DecidableEq

/-- Which role middleware a route registers: the live-session routes use
requireAdminOrInstructor, every other guarded route uses requireAdmin. -/
inductive Gate where
  | adminOnly
  | adminOrInstructor
  deriving Repr, DecidableEq

def gateOf : Route → Gate
  | Route.getLiveSessions => Gate.adminOrInstructor
  | Route.postLiveSessions _ => Gate.adminOrInstructor
  | Route.putLiveSession _ _ => Gate.adminOrInstructor
  | Route.deleteLiveSession _ => Gate.adminOrInstructor
  | _ => Gate.adminOnly

/-- GET /api/users: profiles ordered by name ascending, optionally filtered
by the `role` query parameter when it is truthy. -/
def getUsersH (env : Env) (db : DB) (auth : List AuthUser)
    (roleFilter : Option String) : Result :=
  match env.listQueryError with
  | some m => ⟨internalErr m, db, auth, []⟩
  | none =>
    let sorted := sortByLe (fun a b => decide (a.name ≤ b.name)) db.profiles
    let rows :=
      if jsTruthy roleFilter then
        sorted.filter (fun p => p.role == roleFilter.getD "")
      else sorted
    ⟨⟨200, Body.profileRows rows⟩, db, auth, []⟩

/-- GET /api/instructors: instructor profiles ordered by created_at
descending, projected without the role column. -/
def getInstructorsH (env : Env) (db : DB) (auth : List AuthUser) : Result :=
  match env.listQueryError with
  | some m => ⟨internalErr m, db, auth, []⟩
  | none =>
    let rows := sortByLe (fun a b => decide (b.created_at ≤ a.created_at))
      (db.profiles.filter (fun p => p.role == "instructor"))
    ⟨⟨200, Body.instructorRows
        (rows.map (fun p => ⟨p.id, p.name, p.email, p.avatar, p.created_at⟩))⟩,
      db, auth, []⟩

/-- POST /api/instructors: validate, create the auth user with the
normalized email (Step 1), insert the profile row (Step 2), and on Step 2
failure delete the Step 1 auth user before rethrowing the profile error.
The deleteUser result is discarded by the code, so its failure leaves the
identity in place but changes nothing else. -/
def postInstructorsH (env : Env) (db : DB) (auth : List AuthUser)
    (b : InstructorBody) : Result :=
  if !(jsTruthy b.name && jsTruthy b.email) then
    ⟨⟨400, Body.errB "Validation Error" "Name and email are required"⟩,
      db, auth, []⟩
  else
    let ne := jsTrim (jsToLower (b.email.getD ""))
    match env.createUserError with
    | some m => ⟨internalErr m, db, auth, [Event.identityCreate ne]⟩
    | none =>
      let newId := env.nextUserId
      let auth1 := auth ++ [⟨newId, ne⟩]
      match env.insertProfileError with
      | some m =>
        let auth2 :=
          if env.deleteUserOk then auth1.filter (fun u => u.id != newId)
          else auth1
        ⟨internalErr m, db, auth2,
          [Event.identityCreate ne, Event.profileInsert newId,
           Event.identityDelete newId]⟩
      | none =>
        let p : Profile := ⟨newId, b.name.getD "", ne, "instructor", none, env.now⟩
        ⟨⟨201, Body.createdB true "Instructor created successfully" newId⟩,
          { db with profiles := db.profiles ++ [p] }, auth1,
          [Event.identityCreate ne, Event.profileInsert newId]⟩

/-- GET /api/courses: course list ordered by created_at descending with the
instructor id-and-name join. -/
def getCoursesH (env : Env) (db : DB) (auth : List AuthUser) : Result :=
  match env.listQueryError with
  | some m => ⟨internalErr m, db, auth, []⟩
  | none =>
    let rows := sortByLe (fun a b => decide (b.created_at ≤ a.created_at))
      db.courses
    ⟨⟨200, Body.courseRows (rows.map (fun c => (c, joinName db c.instructor_id)))⟩,
      db, auth, []⟩

/-- GET /api/courses/:id (part_000): a missing row surfaces as the
PGRST116 single-row error which the handler maps to 404; any other lookup
error is thrown to the global handler. -/
def getCourseByIdH (env : Env) (db : DB) (auth : List AuthUser)
    (cid : String) : Result :=
  match env.courseByIdError with
  | some m => ⟨internalErr m, db, auth, []⟩
  | none =>
    match findCourse db.courses cid with
    | none => ⟨⟨404, Body.errB "Not Found" "Course not found"⟩, db, auth, []⟩
    | some c =>
      ⟨⟨200, Body.courseJoinB c (joinName db c.instructor_id)⟩, db, auth, []⟩

/-- POST /api/courses (part_000): validate title, short_desc and
instructor_id, then insert with `status: rest.status || "draft", ...rest`;
the rest spread follows the default, so a supplied status (even empty)
wins and only an absent status becomes "draft". -/
def postCoursesH (env : Env) (db : DB) (auth : List AuthUser)
    (b : CourseBody) : Result :=
  if !(jsTruthy b.title && jsTruthy b.short_desc && jsTruthy b.instructor_id) then
    ⟨⟨400, Body.errB "Validation Error" "title, short_desc, instructor_id required"⟩,
      db, auth, []⟩
  else
    match env.insertCourseError with
    | some m => ⟨internalErr m, db, auth, [Event.dsInsert "courses"]⟩
    | none =>
      let c : Course :=
        ⟨env.nextCourseId, b.title.getD "", b.short_desc.getD "",
         b.instructor_id.getD "", b.status.getD "draft",
         b.category, b.level, b.thumbnail_url, env.now⟩
      ⟨⟨201, Body.courseB c⟩, { db with courses := db.courses ++ [c] },
        auth, [Event.dsInsert "courses"]⟩

/-- `update(req.body)` on a course row: set exactly the supplied columns. -/
def applyCoursePatch (c : Course) (p : CoursePatch) : Course :=
  ⟨c.id, p.title.getD c.title, p.short_desc.getD c.short_desc,
   p.instructor_id.getD c.instructor_id, p.status.getD c.status,
   (p.category.map some).getD c.category, (p.level.map some).getD c.level,
   (p.thumbnail_url.map some).getD c.thumbnail_url, c.created_at⟩

/-- PUT /api/courses/:id (part_000): update then `.select().single()`;
zero matched rows make single() error, which is thrown as a 500 (there is
no 404 branch here). -/
def putCourseH (env : Env) (db : DB) (auth : List AuthUser)
    (cid : String) (p : CoursePatch) : Result :=
  match env.updateCourseError with
  | some m => ⟨internalErr m, db, auth, [Event.dsUpdate "courses" cid]⟩
  | none =>
    match findCourse db.courses cid with
    | none => ⟨internalErr noRowsMsg, db, auth, [Event.dsUpdate "courses" cid]⟩
    | some c =>
      let c2 := applyCoursePatch c p
      ⟨⟨200, Body.courseB c2⟩,
        { db with courses := db.courses.map (fun x => if x.id == cid then c2 else x) },
        auth, [Event.dsUpdate "courses" cid]⟩

/-- DELETE /api/courses/:id (part_000): no single(), so deleting an absent
id still reports success. -/
def deleteCourseH (env : Env) (db : DB) (auth : List AuthUser)
    (cid : String) : Result :=
  match env.deleteCourseError with
  | some m => ⟨internalErr m, db, auth, [Event.dsDelete "courses" cid]⟩
  | none =>
    ⟨⟨200, Body.deletedB true "Course deleted successfully"⟩,
      { db with courses := db.courses.filter (fun c => c.id != cid) },
      auth, [Event.dsDelete "courses" cid]⟩

/-- GET /api/courses/:id/curriculum (part_000): modules of the course
ordered by order_index ascending, with nested lessons and files. -/
def getCurriculumH (env : Env) (db : DB) (auth : List AuthUser)
    (cid : String) : Result :=
  match env.listQueryError with
  | some m => ⟨internalErr m, db, auth, []⟩
  | none =>
    let ms := sortByLe (fun a b => decide (a.order_index ≤ b.order_index))
      (db.modules.filter (fun m => m.course_id == cid))
    let view := ms.map (fun m =>
      ⟨m, (db.lessons.filter (fun l => l.module_id == m.id)).map (fun l =>
        ⟨l, db.lessonFiles.filter (fun f => f.lesson_id == l.id)⟩)⟩)
    ⟨⟨200, Body.curriculumB view⟩, db, auth, []⟩

/-- GET /api/live-sessions (server.js): ordered by start_time descending
with the instructor join; an instructor caller is scoped to their own
rows. -/
def getLiveSessionsH (env : Env) (db : DB) (auth : List AuthUser)
    (uid role : String) : Result :=
  match env.listQueryError with
  | some m => ⟨internalErr m, db, auth, []⟩
  | none =>
    let base := sortByLe (fun a b => decide (b.start_time ≤ a.start_time))
      db.sessions
    let rows :=
      if role == "instructor" then base.filter (fun s => s.instructor_id == uid)
      else base
    ⟨⟨200, Body.sessionRows (rows.map (fun s => (s, joinName db s.instructor_id)))⟩,
      db, auth, []⟩

/-- POST /api/live-sessions (server.js): an instructor caller always
becomes the instructor_id; an admin caller supplies it in the body, and a
falsy final instructor id is rejected with a bare 400 before the insert. -/
def postLiveSessionsH (env : Env) (db : DB) (auth : List AuthUser)
    (uid role : String) (b : SessionBody) : Result :=
  if !(jsTruthy b.title && jsTruthy b.course && jsTruthy b.start_time) then
    ⟨⟨400, Body.errB "Validation Error" "title, course, start_time required"⟩,
      db, auth, []⟩
  else
    let fid := if role == "instructor" then uid else b.instructor_id.getD ""
    if fid == "" then
      ⟨⟨400, Body.errOnly "Instructor required"⟩, db, auth, []⟩
    else
      match env.insertSessionError with
      | some m => ⟨internalErr m, db, auth, [Event.dsInsert "live_sessions"]⟩
      | none =>
        let s : LiveSession :=
          ⟨env.nextSessionId, b.title.getD "", b.course.getD "",
           b.start_time.getD "",
           if jsTruthy b.status then b.status.getD "" else "upcoming", fid⟩
        ⟨⟨201, Body.sessionB s⟩, { db with sessions := db.sessions ++ [s] },
          auth, [Event.dsInsert "live_sessions"]⟩

/-- The instructor ownership lookup
`from("live_sessions").select("instructor_id").eq("id", id).single()`: the
code destructures only `data`, so a lookup error and a missing row are one
`none` branch. -/
def lookupSessionOwner (env : Env) (db : DB) (sid : String) : Option String :=
  if env.sessionOwnerLookupError then none
  else (findSession db.sessions sid).map (fun s => s.instructor_id)

/-- `update(req.body)` on a live-session row. -/
def applySessionPatch (s : LiveSession) (p : SessionPatch) : LiveSession :=
  ⟨s.id, p.title.getD s.title, p.course.getD s.course,
   p.start_time.getD s.start_time, p.status.getD s.status,
   p.instructor_id.getD s.instructor_id⟩

/-- The data-service update of PUT /api/live-sessions/:id, issued after
the guards; `tr` is the trace of the guards that ran before it. -/
def doSessionUpdate (env : Env) (db : DB) (auth : List AuthUser)
    (sid : String) (p : SessionPatch) (tr : List Event) : Result :=
  match env.updateSessionError with
  | some m => ⟨internalErr m, db, auth, tr ++ [Event.dsUpdate "live_sessions" sid]⟩
  | none =>
    match findSession db.sessions sid with
    | none =>
      ⟨internalErr noRowsMsg, db, auth, tr ++ [Event.dsUpdate "live_sessions" sid]⟩
    | some s =>
      let s2 := applySessionPatch s p
      ⟨⟨200, Body.sessionB s2⟩,
        { db with sessions := db.sessions.map (fun x => if x.id == sid then s2 else x) },
        auth, tr ++ [Event.dsUpdate "live_sessions" sid]⟩

/-- PUT /api/live-sessions/:id (server.js): an instructor caller first
passes the ownership guard; an admin caller goes straight to the update. -/
def putLiveSessionH (env : Env) (db : DB) (auth : List AuthUser)
    (uid role : String) (sid : String) (p : SessionPatch) : Result :=
  if role == "instructor" then
    match lookupSessionOwner env db sid with
    | some owner =>
      if owner == uid then
        doSessionUpdate env db auth sid p [Event.ownershipLookup sid]
      else
        ⟨⟨403, Body.errB "Forbidden" "You can only edit your own sessions"⟩,
          db, auth, [Event.ownershipLookup sid]⟩
    | none =>
      ⟨⟨403, Body.errB "Forbidden" "You can only edit your own sessions"⟩,
        db, auth, [Event.ownershipLookup sid]⟩
  else doSessionUpdate env db auth sid p []

/-- The data-service delete of DELETE /api/live-sessions/:id. -/
def doSessionDelete (env : Env) (db : DB) (auth : List AuthUser)
    (sid : String) (tr : List Event) : Result :=
  match env.deleteSessionError with
  | some m => ⟨internalErr m, db, auth, tr ++ [Event.dsDelete "live_sessions" sid]⟩
  | none =>
    ⟨⟨200, Body.deletedB true "Live session deleted successfully"⟩,
      { db with sessions := db.sessions.filter (fun s => s.id != sid) },
      auth, tr ++ [Event.dsDelete "live_sessions" sid]⟩

/-- DELETE /api/live-sessions/:id (server.js). -/
def deleteLiveSessionH (env : Env) (db : DB) (auth : List AuthUser)
    (uid role : String) (sid : String) : Result :=
  if role == "instructor" then
    match lookupSessionOwner env db sid with
    | some owner =>
      if owner == uid then
        doSessionDelete env db auth sid [Event.ownershipLookup sid]
      else
        ⟨⟨403, Body.errB "Forbidden" "You can only delete your own sessions"⟩,
          db, auth, [Event.ownershipLookup sid]⟩
    | none =>
      ⟨⟨403, Body.errB "Forbidden" "You can only delete your own sessions"⟩,
        db, auth, [Event.ownershipLookup sid]⟩
  else doSessionDelete env db auth sid []

/-- Dispatch to the route handler once authentication and the role gate
have passed. -/
def runHandler (env : Env) (db : DB) (auth : List AuthUser)
    (uid role : String) : Route → Result
  | Route.health => ⟨⟨200, Body.healthB "OK" "🚀 LMS Backend API running"⟩, db, auth, []⟩
  | Route.getUsers rf => getUsersH env db auth rf
  | Route.getInstructors => getInstructorsH env db auth
  | Route.postInstructors b => postInstructorsH env db auth b
  | Route.getCourses => getCoursesH env db auth
  | Route.getCourseById cid => getCourseByIdH env db auth cid
  | Route.postCourses b => postCoursesH env db auth b
  | Route.putCourse cid p => putCourseH env db auth cid p
  | Route.deleteCourse cid => deleteCourseH env db auth cid
  | Route.getCurriculum cid => getCurriculumH env db auth cid
  | Route.getLiveSessions => getLiveSessionsH env db auth uid role
  | Route.postLiveSessions b => postLiveSessionsH env db auth uid role b
  | Route.putLiveSession sid p => putLiveSessionH env db auth uid role sid p
  | Route.deleteLiveSession sid => deleteLiveSessionH env db auth uid role sid

/-- The role middleware of the route, then the handler; the trace records
the role lookup and, when the gate passes, the handler entry. -/
def withRole (env : Env) (db : DB) (auth : List AuthUser) (uid : String)
    (r : Route) : Result :=
  let gate :=
    match gateOf r with
    | Gate.adminOnly => requireAdmin env db uid
    | Gate.adminOrInstructor => requireAdminOrInstructor env db uid
  match gate with
  | Except.error resp => ⟨resp, db, auth, [Event.roleLookup uid]⟩
  | Except.ok role =>
    let h := runHandler env db auth uid role r
    ⟨h.resp, h.db, h.auth, Event.roleLookup uid :: Event.handlerRun :: h.trace⟩

/-- One request through the app: the health route has no middleware; every
other route runs verifyToken, then its role middleware, then its handler. -/
def handle (env : Env) (db : DB) (auth : List AuthUser) (hdr : Option String)
    (r : Route) : Result :=
  if r = Route.health then
    ⟨⟨200, Body.healthB "OK" "🚀 LMS Backend API running"⟩, db, auth, []⟩
  else
    match verifyToken env hdr with
    | Except.error resp => ⟨resp, db, auth, []⟩
    | Except.ok uid => withRole env db auth uid r

/-! ### Concrete fixtures

A small world used to instantiate the theorems: an admin, an owning
instructor, a second instructor, a token whose identity has no profile row,
one course and one live session owned by the first instructor. -/

def wGetUser : String → Option String := fun t =>
  if t == "t-admin" then some "u-admin"
  else if t == "t-inst" then some "u-inst"
  else if t == "t-other" then some "u-other"
  else if t == "t-ghost" then some "u-ghost"
  else none

def wEnv : Env :=
  { getUser := wGetUser, nextUserId := "u-new", nextCourseId := "c-new",
    nextSessionId := "s-new", now := "2026-01-01" }

def wAdmin : Profile := ⟨"u-admin", "Ada", "ada@x.com", "admin", none, "2025-01-01"⟩

def wInst : Profile := ⟨"u-inst", "Ivy", "ivy@x.com", "instructor", none, "2025-01-02"⟩

def wOther : Profile := ⟨"u-other", "Oli", "oli@x.com", "instructor", none, "2025-01-03"⟩

def wSession : LiveSession := ⟨"s1", "Algebra", "c1", "2026-02-01", "upcoming", "u-inst"⟩

def wCourse : Course := ⟨"c1", "Calc", "Desc", "u-inst", "draft", none, none, none, "2025-02-01"⟩

def wDb : DB := ⟨[wAdmin, wInst, wOther], [wCourse], [wSession], [], [], []⟩

def wAuth : List AuthUser :=
  [⟨"u-admin", "ada@x.com"⟩, ⟨"u-inst", "ivy@x.com"⟩, ⟨"u-other", "oli@x.com"⟩]

/-! ### Claims -/

/-- Claim C1: for every request to a non-health route whose Authorization
header is absent or not of the Bearer scheme, or whose credential the
identity service rejects, the response is Unauthenticated with status 401,
and no role lookup, ownership lookup, or handler logic is ever executed for
that request (the trace is empty and both service states are unchanged). -/
theorem c1_unauthenticated_before_everything (env : Env) (db : DB)
    (auth : List AuthUser) (hdr : Option String) (r : Route)
    (hr : r ≠ Route.health)
    (hfail : hdr = none ∨ ∃ h, hdr = some h ∧
      (strStarts h "Bearer " = false ∨ env.getUser (bearerToken h) = none)) :
    (handle env db auth hdr r).resp.status = 401 ∧
    (handle env db auth hdr r).resp.errorKind = some "Unauthorized" ∧
    (handle env db auth hdr r).trace = [] ∧
    (handle env db auth hdr r).db = db ∧
    (handle env db auth hdr r).auth = auth := by
  rcases hfail with h1 | ⟨h, hh, hcase⟩
  · subst h1
    simp [handle, hr, verifyToken, unauthorizedMissing, Response.errorKind]
  · subst hh
    rcases hcase with hs | hg
    · simp [handle, hr, verifyToken, hs, unauthorizedMissing, Response.errorKind]
    · by_cases hb : strStarts h "Bearer "
      · simp [handle, hr, verifyToken, hb, hg, unauthorizedInvalid,
          Response.errorKind]
      · simp [handle, hr, verifyToken, hb, unauthorizedMissing,
          Response.errorKind]

theorem c1_witness :
    (Route.getUsers none ≠ Route.health) ∧
    (handle wEnv wDb wAuth none (Route.getUsers none)).resp.status = 401 ∧
    (handle wEnv wDb wAuth none (Route.getUsers none)).trace = [] := by
  refine ⟨by decide, ?_⟩
  have h := c1_unauthenticated_before_everything wEnv wDb wAuth none
    (Route.getUsers none) (by decide) (Or.inl rfl)
  exact ⟨h.1, h.2.2.1⟩

/-- Claim C4: every authenticated identity whose profile lookup errors or
finds no row is denied with Forbidden 403 on every role-gated route; the
trace stops at the role lookup, so the identity is denied rather than
treated as anonymous or unauthenticated. -/
theorem c4_no_profile_is_forbidden (env : Env) (db : DB)
    (auth : List AuthUser) (hdr : Option String) (r : Route) (uid : String)
    (hr : r ≠ Route.health)
    (hauth : verifyToken env hdr = Except.ok uid)
    (hnoprof : lookupRole env db uid = none) :
    (handle env db auth hdr r).resp.status = 403 ∧
    (handle env db auth hdr r).resp.errorKind = some "Forbidden" ∧
    (handle env db auth hdr r).trace = [Event.roleLookup uid] ∧
    (handle env db auth hdr r).db = db ∧
    (handle env db auth hdr r).auth = auth := by
  cases r <;>
    first
      | exact absurd rfl hr
      | simp [handle, hauth, withRole, gateOf, requireAdmin,
          requireAdminOrInstructor, hnoprof, Response.errorKind]

theorem c4_witness :
    verifyToken wEnv (some "Bearer t-ghost") = Except.ok "u-ghost" ∧
    lookupRole wEnv wDb "u-ghost" = none ∧
    (handle wEnv wDb wAuth (some "Bearer t-ghost") Route.getCourses).resp.status = 403 ∧
    (handle wEnv wDb wAuth (some "Bearer t-ghost") Route.getCourses).resp.errorKind =
      some "Forbidden" := by
  refine ⟨by decide, by decide, ?_⟩
  have h := c4_no_profile_is_forbidden wEnv wDb wAuth (some "Bearer t-ghost")
    Route.getCourses "u-ghost" (by decide) (by decide) (by decide)
  exact ⟨h.1, h.2.1⟩

/-- Claim C7: POST /api/instructors by an admin with name Ana and email
"ANA@X.COM " (upper-cased, trailing blank) succeeds with 201, and the email
stored in both the created identity-service user and the inserted Profile
row is exactly "ana@x.com". -/
theorem c7_email_normalized :
    (handle wEnv wDb wAuth (some "Bearer t-admin")
        (Route.postInstructors ⟨some "Ana", some "ANA@X.COM "⟩)).resp =
      ⟨201, Body.createdB true "Instructor created successfully" "u-new"⟩ ∧
    findAuthUser (handle wEnv wDb wAuth (some "Bearer t-admin")
        (Route.postInstructors ⟨some "Ana", some "ANA@X.COM "⟩)).auth "u-new" =
      some ⟨"u-new", "ana@x.com"⟩ ∧
    findProfile (handle wEnv wDb wAuth (some "Bearer t-admin")
        (Route.postInstructors ⟨some "Ana", some "ANA@X.COM "⟩)).db.profiles "u-new" =
      some ⟨"u-new", "Ana", "ana@x.com", "instructor", none, "2026-01-01"⟩ := by
  decide

/-- Claim C2: for an instructor issuing PUT or DELETE on
/api/live-sessions/:id, a missing target session or one owned by a
different instructor yields Forbidden 403 with no update or delete issued
to the data service (the trace ends at the ownership lookup and the tables
are unchanged); when the instructor owns the session both operations
proceed and succeed with 200, given the data-service call itself does not
fail. -/
theorem c2_instructor_ownership_gate (env : Env) (db : DB)
    (auth : List AuthUser) (hdr : Option String) (uid sid : String)
    (p : SessionPatch)
    (hauth : verifyToken env hdr = Except.ok uid)
    (hrole : lookupRole env db uid = some "instructor")
    (hlk : env.sessionOwnerLookupError = false) :
    ((findSession db.sessions sid = none ∨
        (∃ s, findSession db.sessions sid = some s ∧ s.instructor_id ≠ uid)) →
      (handle env db auth hdr (Route.putLiveSession sid p)).resp =
        ⟨403, Body.errB "Forbidden" "You can only edit your own sessions"⟩ ∧
      (handle env db auth hdr (Route.putLiveSession sid p)).trace =
        [Event.roleLookup uid, Event.handlerRun, Event.ownershipLookup sid] ∧
      (handle env db auth hdr (Route.putLiveSession sid p)).db = db ∧
      (handle env db auth hdr (Route.deleteLiveSession sid)).resp =
        ⟨403, Body.errB "Forbidden" "You can only delete your own sessions"⟩ ∧
      (handle env db auth hdr (Route.deleteLiveSession sid)).trace =
        [Event.roleLookup uid, Event.handlerRun, Event.ownershipLookup sid] ∧
      (handle env db auth hdr (Route.deleteLiveSession sid)).db = db) ∧
    (∀ s, findSession db.sessions sid = some s → s.instructor_id = uid →
      (env.updateSessionError = none →
        (handle env db auth hdr (Route.putLiveSession sid p)).resp =
          ⟨200, Body.sessionB (applySessionPatch s p)⟩) ∧
      (env.deleteSessionError = none →
        (handle env db auth hdr (Route.deleteLiveSession sid)).resp =
          ⟨200, Body.deletedB true "Live session deleted successfully"⟩)) := by
  constructor
  · intro hbad
    rcases hbad with hnone | ⟨s, hs, hne⟩
    · simp [handle, hauth, withRole, gateOf, requireAdminOrInstructor, hrole,
        runHandler, putLiveSessionH, deleteLiveSessionH, lookupSessionOwner,
        hlk, hnone]
    · simp [handle, hauth, withRole, gateOf, requireAdminOrInstructor, hrole,
        runHandler, putLiveSessionH, deleteLiveSessionH, lookupSessionOwner,
        hlk, hs, hne]
  · intro s hs hown
    constructor
    · intro hupd
      simp [handle, hauth, withRole, gateOf, requireAdminOrInstructor, hrole,
        runHandler, putLiveSessionH, lookupSessionOwner, hlk, hs, hown,
        doSessionUpdate, hupd]
    · intro hdel
      simp [handle, hauth, withRole, gateOf, requireAdminOrInstructor, hrole,
        runHandler, deleteLiveSessionH, lookupSessionOwner, hlk, hs, hown,
        doSessionDelete, hdel]

theorem c2_witness :
    (handle wEnv wDb wAuth (some "Bearer t-other")
        (Route.putLiveSession "s1" {})).resp.status = 403 ∧
    (handle wEnv wDb wAuth (some "Bearer t-other")
        (Route.deleteLiveSession "s1")).resp.status = 403 ∧
    (handle wEnv wDb wAuth (some "Bearer t-inst")
        (Route.deleteLiveSession "s1")).resp.status = 200 ∧
    (handle wEnv wDb wAuth (some "Bearer t-inst")
        (Route.putLiveSession "s1" {})).resp.status = 200 := by
  have hother := c2_instructor_ownership_gate wEnv wDb wAuth
    (some "Bearer t-other") "u-other" "s1" {} (by decide) (by decide) rfl
  have hown := c2_instructor_ownership_gate wEnv wDb wAuth
    (some "Bearer t-inst") "u-inst" "s1" {} (by decide) (by decide) rfl
  have h1 := hother.1 (Or.inr ⟨wSession, by decide, by decide⟩)
  have h2 := hown.2 wSession (by decide) rfl
  refine ⟨?_, ?_, ?_, ?_⟩
  · rw [h1.1]
  · rw [h1.2.2.2.1]
  · rw [h2.2 rfl]
  · rw [h2.1 rfl]

/-- Claim C5: for an admin, the ownership check on live-session mutations
is skipped entirely: whatever the session table holds and whatever the
target id, the trace of a PUT or DELETE contains no ownership lookup and
goes straight from the handler to the data-service operation. -/
theorem c5_admin_skips_ownership (env : Env) (db : DB)
    (auth : List AuthUser) (hdr : Option String) (uid sid : String)
    (p : SessionPatch)
    (hauth : verifyToken env hdr = Except.ok uid)
    (hrole : lookupRole env db uid = some "admin") :
    (handle env db auth hdr (Route.putLiveSession sid p)).trace =
      [Event.roleLookup uid, Event.handlerRun, Event.dsUpdate "live_sessions" sid] ∧
    (handle env db auth hdr (Route.deleteLiveSession sid)).trace =
      [Event.roleLookup uid, Event.handlerRun, Event.dsDelete "live_sessions" sid] ∧
    Event.ownershipLookup sid ∉
      (handle env db auth hdr (Route.putLiveSession sid p)).trace ∧
    Event.ownershipLookup sid ∉
      (handle env db auth hdr (Route.deleteLiveSession sid)).trace := by
  have hput : (handle env db auth hdr (Route.putLiveSession sid p)).trace =
      [Event.roleLookup uid, Event.handlerRun,
       Event.dsUpdate "live_sessions" sid] := by
    cases hu : env.updateSessionError with
    | none =>
      cases hf : findSession db.sessions sid with
      | none =>
        simp [handle, hauth, withRole, gateOf, requireAdminOrInstructor, hrole,
          runHandler, putLiveSessionH, doSessionUpdate, hu, hf]
      | some s =>
        simp [handle, hauth, withRole, gateOf, requireAdminOrInstructor, hrole,
          runHandler, putLiveSessionH, doSessionUpdate, hu, hf]
    | some m =>
      simp [handle, hauth, withRole, gateOf, requireAdminOrInstructor, hrole,
        runHandler, putLiveSessionH, doSessionUpdate, hu]
  have hdel : (handle env db auth hdr (Route.deleteLiveSession sid)).trace =
      [Event.roleLookup uid, Event.handlerRun,
       Event.dsDelete "live_sessions" sid] := by
    cases hu : env.deleteSessionError with
    | none =>
      simp [handle, hauth, withRole, gateOf, requireAdminOrInstructor, hrole,
        runHandler, deleteLiveSessionH, doSessionDelete, hu]
    | some m =>
      simp [handle, hauth, withRole, gateOf, requireAdminOrInstructor, hrole,
        runHandler, deleteLiveSessionH, doSessionDelete, hu]
  refine ⟨hput, hdel, ?_, ?_⟩
  · rw [hput]; simp
  · rw [hdel]; simp

theorem c5_witness :
    (handle wEnv wDb wAuth (some "Bearer t-admin")
        (Route.putLiveSession "s1" {})).trace =
      [Event.roleLookup "u-admin", Event.handlerRun,
       Event.dsUpdate "live_sessions" "s1"] ∧
    (handle wEnv wDb wAuth (some "Bearer t-admin")
        (Route.deleteLiveSession "s1")).trace =
      [Event.roleLookup "u-admin", Event.handlerRun,
       Event.dsDelete "live_sessions" "s1"] := by
  have h := c5_admin_skips_ownership wEnv wDb wAuth (some "Bearer t-admin")
    "u-admin" "s1" {} (by decide) (by decide)
  exact ⟨h.1, h.2.1⟩

/-- Claim C10: POST /api/live-sessions by an instructor always stores the
acting identity as instructor_id, whatever the body supplies; an admin
sets instructor_id from the body, and an admin request with a falsy
instructor_id fails with 400 before any insert (no data-service write, no
table change). -/
theorem c10_session_instructor_binding (env : Env) (db : DB)
    (auth : List AuthUser) (hdr : Option String) (uid : String)
    (b : SessionBody)
    (hauth : verifyToken env hdr = Except.ok uid)
    (ht : jsTruthy b.title = true) (hc : jsTruthy b.course = true)
    (hs : jsTruthy b.start_time = true) :
    (lookupRole env db uid = some "instructor" → uid ≠ "" →
      env.insertSessionError = none →
      (handle env db auth hdr (Route.postLiveSessions b)).resp =
        ⟨201, Body.sessionB ⟨env.nextSessionId, b.title.getD "", b.course.getD "",
          b.start_time.getD "",
          if jsTruthy b.status then b.status.getD "" else "upcoming", uid⟩⟩) ∧
    (lookupRole env db uid = some "admin" → jsTruthy b.instructor_id = false →
      (handle env db auth hdr (Route.postLiveSessions b)).resp =
        ⟨400, Body.errOnly "Instructor required"⟩ ∧
      (handle env db auth hdr (Route.postLiveSessions b)).trace =
        [Event.roleLookup uid, Event.handlerRun] ∧
      (handle env db auth hdr (Route.postLiveSessions b)).db = db) ∧
    (∀ iid, lookupRole env db uid = some "admin" → b.instructor_id = some iid →
      iid ≠ "" → env.insertSessionError = none →
      (handle env db auth hdr (Route.postLiveSessions b)).resp =
        ⟨201, Body.sessionB ⟨env.nextSessionId, b.title.getD "", b.course.getD "",
          b.start_time.getD "",
          if jsTruthy b.status then b.status.getD "" else "upcoming", iid⟩⟩) := by
  refine ⟨?_, ?_, ?_⟩
  · intro hrole huid hins
    simp [handle, hauth, withRole, gateOf, requireAdminOrInstructor, hrole,
      runHandler, postLiveSessionsH, ht, hc, hs, huid, hins]
  · intro hrole hfid
    have hfid2 : b.instructor_id.getD "" = "" := by
      cases hb : b.instructor_id with
      | none => rfl
      | some v =>
        rw [hb] at hfid
        simp [jsTruthy] at hfid
        simp [hfid]
    simp [handle, hauth, withRole, gateOf, requireAdminOrInstructor, hrole,
      runHandler, postLiveSessionsH, ht, hc, hs, hfid2]
  · intro iid hrole hiid hne hins
    simp [handle, hauth, withRole, gateOf, requireAdminOrInstructor, hrole,
      runHandler, postLiveSessionsH, ht, hc, hs, hiid, hne, hins]

theorem c10_witness :
    (handle wEnv wDb wAuth (some "Bearer t-inst")
        (Route.postLiveSessions ⟨some "T", some "C", some "2026-03-01", none,
          some "u-other"⟩)).resp =
      ⟨201, Body.sessionB ⟨"s-new", "T", "C", "2026-03-01", "upcoming", "u-inst"⟩⟩ ∧
    (handle wEnv wDb wAuth (some "Bearer t-admin")
        (Route.postLiveSessions ⟨some "T", some "C", some "2026-03-01", none,
          none⟩)).resp =
      ⟨400, Body.errOnly "Instructor required"⟩ ∧
    (handle wEnv wDb wAuth (some "Bearer t-admin")
        (Route.postLiveSessions ⟨some "T", some "C", some "2026-03-01", none,
          some "u-other"⟩)).resp =
      ⟨201, Body.sessionB ⟨"s-new", "T", "C", "2026-03-01", "upcoming", "u-other"⟩⟩ := by
  have hinst := c10_session_instructor_binding wEnv wDb wAuth
    (some "Bearer t-inst") "u-inst"
    ⟨some "T", some "C", some "2026-03-01", none, some "u-other"⟩
    (by decide) (by decide) (by decide) (by decide)
  have hadm1 := c10_session_instructor_binding wEnv wDb wAuth
    (some "Bearer t-admin") "u-admin"
    ⟨some "T", some "C", some "2026-03-01", none, none⟩
    (by decide) (by decide) (by decide) (by decide)
  have hadm2 := c10_session_instructor_binding wEnv wDb wAuth
    (some "Bearer t-admin") "u-admin"
    ⟨some "T", some "C", some "2026-03-01", none, some "u-other"⟩
    (by decide) (by decide) (by decide) (by decide)
  refine ⟨?_, ?_, ?_⟩
  · exact hinst.1 (by decide) (by decide) rfl
  · exact (hadm1.2.1 (by decide) (by decide)).1
  · exact hadm2.2.2 "u-other" (by decide) rfl (by decide) rfl

/-- Removing a freshly appended auth user restores the original list. -/
theorem filter_fresh_append (auth : List AuthUser) (u : AuthUser)
    (hfresh : ∀ v ∈ auth, v.id ≠ u.id) :
    (auth ++ [u]).filter (fun v => v.id != u.id) = auth := by
  rw [List.filter_append]
  have h1 : auth.filter (fun v => v.id != u.id) = auth :=
    List.filter_eq_self.mpr (by intro v hv; simpa using hfresh v hv)
  have h2 : [u].filter (fun v => v.id != u.id) = [] := by simp
  rw [h1, h2, List.append_nil]

/-- The environment of the C3 counterexample: Step 2 fails and the
compensating identity-service delete itself fails. -/
def c3Env : Env :=
  { wEnv with
    insertProfileError := some "profiles insert failed",
    deleteUserOk := false }

/-- Counterexample to claim C3 as stated: with Step 1 succeeding, Step 2
failing, and the compensating delete itself failing, the Step-2 error is
surfaced and the delete was attempted, yet the terminal state holds the
identity u-new with no corresponding Profile row - an orphaned Identity.
The claim that no terminal state leaves an Identity without a Profile is
therefore false. -/
theorem c3_counterexample :
    (handle c3Env wDb wAuth (some "Bearer t-admin")
        (Route.postInstructors ⟨some "Ana", some "ana@x.com"⟩)).resp =
      internalErr "profiles insert failed" ∧
    (handle c3Env wDb wAuth (some "Bearer t-admin")
        (Route.postInstructors ⟨some "Ana", some "ana@x.com"⟩)).trace =
      [Event.roleLookup "u-admin", Event.handlerRun,
       Event.identityCreate "ana@x.com", Event.profileInsert "u-new",
       Event.identityDelete "u-new"] ∧
    findAuthUser (handle c3Env wDb wAuth (some "Bearer t-admin")
        (Route.postInstructors ⟨some "Ana", some "ana@x.com"⟩)).auth "u-new" =
      some ⟨"u-new", "ana@x.com"⟩ ∧
    findProfile (handle c3Env wDb wAuth (some "Bearer t-admin")
        (Route.postInstructors ⟨some "Ana", some "ana@x.com"⟩)).db.profiles
      "u-new" = none := by
  decide

/-- Claim C3 as amended: whenever Identity creation (Step 1) succeeds and
Profile insertion (Step 2) fails, the compensating delete of the Step-1
Identity is executed before the Step-2 error is surfaced as the response,
and the compensating delete result never replaces the reported Step-2 error
(the response is the same whatever the delete outcome); whenever the
compensating delete itself succeeds, the terminal state holds no Identity
without a corresponding Profile (a failed compensating delete can leave an
orphaned Identity, since its result is discarded). -/
theorem c3_compensating_delete (env : Env) (db : DB) (auth : List AuthUser)
    (hdr : Option String) (uid : String) (b : InstructorBody) (m : String)
    (hauth : verifyToken env hdr = Except.ok uid)
    (hrole : lookupRole env db uid = some "admin")
    (hname : jsTruthy b.name = true) (hemail : jsTruthy b.email = true)
    (hcreate : env.createUserError = none)
    (hfail : env.insertProfileError = some m)
    (hfresh : ∀ v ∈ auth, v.id ≠ env.nextUserId) :
    (handle env db auth hdr (Route.postInstructors b)).resp = internalErr m ∧
    (handle env db auth hdr (Route.postInstructors b)).trace =
      [Event.roleLookup uid, Event.handlerRun,
       Event.identityCreate (jsTrim (jsToLower (b.email.getD ""))),
       Event.profileInsert env.nextUserId,
       Event.identityDelete env.nextUserId] ∧
    (handle env db auth hdr (Route.postInstructors b)).db = db ∧
    (env.deleteUserOk = true →
      (handle env db auth hdr (Route.postInstructors b)).auth = auth) := by
  refine ⟨?_, ?_, ?_, ?_⟩
  · simp [handle, hauth, withRole, gateOf, requireAdmin, hrole, runHandler,
      postInstructorsH, hname, hemail, hcreate, hfail]
  · simp [handle, hauth, withRole, gateOf, requireAdmin, hrole, runHandler,
      postInstructorsH, hname, hemail, hcreate, hfail]
  · simp [handle, hauth, withRole, gateOf, requireAdmin, hrole, runHandler,
      postInstructorsH, hname, hemail, hcreate, hfail]
  · intro hdel
    simp [handle, hauth, withRole, gateOf, requireAdmin, hrole, runHandler,
      postInstructorsH, hname, hemail, hcreate, hfail, hdel]
    have h := filter_fresh_append auth
      ⟨env.nextUserId, jsTrim (jsToLower (b.email.getD ""))⟩ hfresh
    simpa using h

/-- The environment of the C3 witness: Step 2 fails and the compensating
delete succeeds. -/
def c3okEnv : Env := { wEnv with insertProfileError := some "profiles insert failed" }

theorem c3_witness :
    (handle c3okEnv wDb wAuth (some "Bearer t-admin")
        (Route.postInstructors ⟨some "Ana", some "ana@x.com"⟩)).resp =
      internalErr "profiles insert failed" ∧
    (handle c3okEnv wDb wAuth (some "Bearer t-admin")
        (Route.postInstructors ⟨some "Ana", some "ana@x.com"⟩)).auth = wAuth := by
  have h := c3_compensating_delete c3okEnv wDb wAuth (some "Bearer t-admin")
    "u-admin" ⟨some "Ana", some "ana@x.com"⟩ "profiles insert failed"
    (by decide) (by decide) (by decide) (by decide) rfl rfl (by decide)
  exact ⟨h.1, h.2.2.2 rfl⟩

/-- The environment of the C6 counterexample: the identity service rejects
Step 1 with a duplicate-account error. -/
def c6Env : Env :=
  { wEnv with
    createUserError := some "A user with this email address has already been registered" }

/-- Counterexample to claim C6 as stated: when the identity service rejects
the Step-1 create as a duplicate, the response status is 500 (the thrown
upstream error is caught by the global error handler), not the 409 the
claim requires; no route of the code ever produces 409. -/
theorem c6_counterexample :
    (handle c6Env wDb wAuth (some "Bearer t-admin")
        (Route.postInstructors ⟨some "Ana", some "ana@x.com"⟩)).resp.status = 500 ∧
    ¬ (handle c6Env wDb wAuth (some "Bearer t-admin")
        (Route.postInstructors ⟨some "Ana", some "ana@x.com"⟩)).resp.status = 409 ∧
    (handle c6Env wDb wAuth (some "Bearer t-admin")
        (Route.postInstructors ⟨some "Ana", some "ana@x.com"⟩)).db.profiles =
      wDb.profiles := by
  decide

/-- Claim C6 as amended: when the identity service rejects the Step-1
create of POST /api/instructors (for instance for a duplicate email), the
workflow terminates immediately with no Profile row inserted and no
identity added, and the failure is surfaced through the global error
handler as a 500 Internal Server Error carrying the identity-service error
message (the code maps nothing to 409). -/
theorem c6_duplicate_rejected_as_500 (env : Env) (db : DB)
    (auth : List AuthUser) (hdr : Option String) (uid : String)
    (b : InstructorBody) (m : String)
    (hauth : verifyToken env hdr = Except.ok uid)
    (hrole : lookupRole env db uid = some "admin")
    (hname : jsTruthy b.name = true) (hemail : jsTruthy b.email = true)
    (hdup : env.createUserError = some m) :
    (handle env db auth hdr (Route.postInstructors b)).resp = internalErr m ∧
    (handle env db auth hdr (Route.postInstructors b)).trace =
      [Event.roleLookup uid, Event.handlerRun,
       Event.identityCreate (jsTrim (jsToLower (b.email.getD "")))] ∧
    (handle env db auth hdr (Route.postInstructors b)).db = db ∧
    (handle env db auth hdr (Route.postInstructors b)).auth = auth := by
  refine ⟨?_, ?_, ?_, ?_⟩ <;>
    simp [handle, hauth, withRole, gateOf, requireAdmin, hrole, runHandler,
      postInstructorsH, hname, hemail, hdup, internalErr]

theorem c6_witness :
    (handle c6Env wDb wAuth (some "Bearer t-admin")
        (Route.postInstructors ⟨some "Ana", some "ana@x.com"⟩)).resp =
      internalErr "A user with this email address has already been registered" ∧
    (handle c6Env wDb wAuth (some "Bearer t-admin")
        (Route.postInstructors ⟨some "Ana", some "ana@x.com"⟩)).auth = wAuth := by
  have h := c6_duplicate_rejected_as_500 c6Env wDb wAuth
    (some "Bearer t-admin") "u-admin" ⟨some "Ana", some "ana@x.com"⟩
    "A user with this email address has already been registered"
    (by decide) (by decide) (by decide) (by decide) rfl
  exact ⟨h.1, h.2.2.2⟩

/-- Claim C8: GET /api/courses/:id returns 404 with a NotFound error body
(not a 500) for every id matching no course row, and 200 with the course
record (and its instructor join) for every existing id, given the lookup
call itself does not fail. -/
theorem c8_course_by_id (env : Env) (db : DB) (auth : List AuthUser)
    (hdr : Option String) (uid cid : String)
    (hauth : verifyToken env hdr = Except.ok uid)
    (hrole : lookupRole env db uid = some "admin")
    (herr : env.courseByIdError = none) :
    (findCourse db.courses cid = none →
      (handle env db auth hdr (Route.getCourseById cid)).resp =
        ⟨404, Body.errB "Not Found" "Course not found"⟩) ∧
    (∀ c, findCourse db.courses cid = some c →
      (handle env db auth hdr (Route.getCourseById cid)).resp =
        ⟨200, Body.courseJoinB c (joinName db c.instructor_id)⟩) := by
  constructor
  · intro hnone
    simp [handle, hauth, withRole, gateOf, requireAdmin, hrole, runHandler,
      getCourseByIdH, herr, hnone]
  · intro c hc
    simp [handle, hauth, withRole, gateOf, requireAdmin, hrole, runHandler,
      getCourseByIdH, herr, hc]

theorem c8_witness :
    (handle wEnv wDb wAuth (some "Bearer t-admin")
        (Route.getCourseById "missing-id")).resp =
      ⟨404, Body.errB "Not Found" "Course not found"⟩ ∧
    (handle wEnv wDb wAuth (some "Bearer t-admin")
        (Route.getCourseById "c1")).resp =
      ⟨200, Body.courseJoinB wCourse (some ("u-inst", "Ivy"))⟩ := by
  have hmiss := c8_course_by_id wEnv wDb wAuth (some "Bearer t-admin")
    "u-admin" "missing-id" (by decide) (by decide) rfl
  have hhit := c8_course_by_id wEnv wDb wAuth (some "Bearer t-admin")
    "u-admin" "c1" (by decide) (by decide) rfl
  refine ⟨hmiss.1 (by decide), ?_⟩
  have h := hhit.2 wCourse (by decide)
  rw [h]
  decide

/-- A fresh course appended to the table is found by its id. -/
theorem findCourse_append_self (cs : List Course) (c : Course)
    (h : findCourse cs c.id = none) :
    findCourse (cs ++ [c]) c.id = some c := by
  unfold findCourse at *
  rw [List.find?_append, h]
  simp

/-- Claim C9: POST /api/courses with a valid body (truthy title,
short_desc, instructor_id) and no status field creates a record carrying
exactly the submitted fields plus the server-assigned id, status "draft"
and timestamp, and a subsequent GET /api/courses/:id on the returned id
yields that same record with 200. -/
theorem c9_course_roundtrip (env : Env) (db : DB) (auth : List AuthUser)
    (hdr : Option String) (uid : String) (b : CourseBody)
    (hauth : verifyToken env hdr = Except.ok uid)
    (hrole : lookupRole env db uid = some "admin")
    (ht : jsTruthy b.title = true) (hd : jsTruthy b.short_desc = true)
    (hi : jsTruthy b.instructor_id = true) (hst : b.status = none)
    (hins : env.insertCourseError = none)
    (hfresh : findCourse db.courses env.nextCourseId = none)
    (hbid : env.courseByIdError = none) :
    (handle env db auth hdr (Route.postCourses b)).resp =
      ⟨201, Body.courseB ⟨env.nextCourseId, b.title.getD "", b.short_desc.getD "",
        b.instructor_id.getD "", "draft", b.category, b.level, b.thumbnail_url,
        env.now⟩⟩ ∧
    (handle env (handle env db auth hdr (Route.postCourses b)).db
        (handle env db auth hdr (Route.postCourses b)).auth hdr
        (Route.getCourseById env.nextCourseId)).resp =
      ⟨200, Body.courseJoinB
        ⟨env.nextCourseId, b.title.getD "", b.short_desc.getD "",
         b.instructor_id.getD "", "draft", b.category, b.level, b.thumbnail_url,
         env.now⟩
        (joinName (handle env db auth hdr (Route.postCourses b)).db
          (b.instructor_id.getD ""))⟩ := by
  have hpost : handle env db auth hdr (Route.postCourses b) =
      ⟨⟨201, Body.courseB ⟨env.nextCourseId, b.title.getD "", b.short_desc.getD "",
          b.instructor_id.getD "", "draft", b.category, b.level, b.thumbnail_url,
          env.now⟩⟩,
        { db with courses := db.courses ++ [⟨env.nextCourseId, b.title.getD "",
            b.short_desc.getD "", b.instructor_id.getD "", "draft", b.category,
            b.level, b.thumbnail_url, env.now⟩] }, auth,
        [Event.roleLookup uid, Event.handlerRun, Event.dsInsert "courses"]⟩ := by
    simp [handle, hauth, withRole, gateOf, requireAdmin, hrole, runHandler,
      postCoursesH, ht, hd, hi, hins, hst]
  have hfind : findCourse (db.courses ++ [(⟨env.nextCourseId, b.title.getD "",
      b.short_desc.getD "", b.instructor_id.getD "", "draft", b.category,
      b.level, b.thumbnail_url, env.now⟩ : Course)]) env.nextCourseId =
      some ⟨env.nextCourseId, b.title.getD "", b.short_desc.getD "",
        b.instructor_id.getD "", "draft", b.category, b.level, b.thumbnail_url,
        env.now⟩ :=
    findCourse_append_self db.courses _ hfresh
  have hrole2 : lookupRole env
      { db with courses := db.courses ++ [⟨env.nextCourseId, b.title.getD "",
          b.short_desc.getD "", b.instructor_id.getD "", "draft", b.category,
          b.level, b.thumbnail_url, env.now⟩] } uid = some "admin" := hrole
  refine ⟨by rw [hpost], ?_⟩
  rw [hpost]
  simp [handle, hauth, withRole, gateOf, requireAdmin, hrole2, runHandler,
    getCourseByIdH, hbid, hfind, joinName]

theorem c9_witness :
    (handle wEnv wDb wAuth (some "Bearer t-admin")
        (Route.postCourses ⟨some "Geometry", some "Shapes", some "u-inst",
          none, none, none, none⟩)).resp =
      ⟨201, Body.courseB ⟨"c-new", "Geometry", "Shapes", "u-inst", "draft",
        none, none, none, "2026-01-01"⟩⟩ ∧
    (handle wEnv (handle wEnv wDb wAuth (some "Bearer t-admin")
        (Route.postCourses ⟨some "Geometry", some "Shapes", some "u-inst",
          none, none, none, none⟩)).db
      (handle wEnv wDb wAuth (some "Bearer t-admin")
        (Route.postCourses ⟨some "Geometry", some "Shapes", some "u-inst",
          none, none, none, none⟩)).auth
      (some "Bearer t-admin") (Route.getCourseById "c-new")).resp =
      ⟨200, Body.courseJoinB ⟨"c-new", "Geometry", "Shapes", "u-inst", "draft",
        none, none, none, "2026-01-01"⟩ (some ("u-inst", "Ivy"))⟩ := by
  have h := c9_course_roundtrip wEnv wDb wAuth (some "Bearer t-admin")
    "u-admin" ⟨some "Geometry", some "Shapes", some "u-inst", none, none,
      none, none⟩
    (by decide) (by decide) (by decide) (by decide) (by decide) rfl rfl
    (by decide) rfl
  exact ⟨h.1, h.2⟩

end Lms
